import Mathlib

/-
Verification of the FDF-annotation extraction pipeline
(fdf_to_wkt.py, with the duplicated converter of fdf_to_shapely.py).

Modelling conventions:
* Python strings are modelled as `List Char`; `str s` abbreviates `s.data`.
* Python `str.split(" ")` is `pySplitSpace` (keeps empty fields, one field
  for the empty string); `str.split()` is `pySplitWs` (splits on whitespace
  runs, drops empty fields); `sep.join(xs)` is `pyJoin sep xs`.
* Fallible Python code is `Except PyErr`: `.error .typeError` models the
  TypeError raised by subscripting None, `.error .valueError` the ValueError
  of a failed 4-way unpack, `.error .indexError` the IndexError of acc[0]
  on an empty list.  A Python function that falls off its end returns None,
  modelled as `.ok none`.
* The third-party `parse` library is external to the repository.  For the
  line-oriented state machine, an input line is modelled at the library's
  interface: an `FdfLine` records the result each `parse.search` call of the
  source would produce on that line, together with the substring tests the
  scanner performs ("stream" in line, "endstream" in line, the
  "... 0 obj<<" header test) and the line's truthiness as a string.
* For the content-stream grammar (patterns "g g g RG", "g g g rg",
  " g w" with case_sensitive=True) the matching itself is modelled
  character by character: literal pattern text matches exactly, and a
  ":g"-typed field matches a decimal numeral, converted to ℚ.
-/

inductive PyErr where
  | typeError
  | valueError
  | indexError
deriving DecidableEq

abbrev str (s : String) : List Char := s.data

/-- Python sep.join of a list of strings. -/
def pyJoin (sep : List Char) : List (List Char) → List Char
  | [] => []
  | [x] => x
  | x :: y :: xs => x ++ sep ++ pyJoin sep (y :: xs)

/-- Split a character list at every character satisfying p, keeping empty
fields; the result is always nonempty (Python str.split with an explicit
separator). -/
def splitBy (p : Char → Bool) : List Char → List (List Char)
  | [] => [[]]
  | c :: cs =>
    if p c then [] :: splitBy p cs
    else
      match splitBy p cs with
      | t :: ts => (c :: t) :: ts
      | [] => [[c]]

/-- Python s.split(" "). -/
def pySplitSpace (s : List Char) : List (List Char) :=
  splitBy (fun c => c == ' ') s

/-- Python s.split() with no argument: split on whitespace runs, dropping
empty fields. -/
def pySplitWs (s : List Char) : List (List Char) :=
  (splitBy Char.isWhitespace s).filter (fun t => !t.isEmpty)

/-- AnnotationProperties of fdf_to_wkt.py: every style field optional. -/
structure AnnotationProperties where
  line_color : Option (ℚ × ℚ × ℚ)
  line_opacity : Option ℚ
  line_weight : Option ℚ
  line_type : Option (ℚ × List ℚ)
  fill_color : Option (ℚ × ℚ × ℚ)
  fill_opacity : Option ℚ
deriving DecidableEq

/-- Annotation of fdf_to_wkt.py.  The geom field (a shapely geometry,
materialized by the external shapely library) is outside the model. -/
structure Annotation where
  object_type : List Char
  vertices : List Char
  page : Option (List Char)
  label : Option (List Char)
  properties : Option AnnotationProperties
  wkt : Option (List Char)
deriving DecidableEq

/-- One input line, modelled at the interface of the parse library: each
field records what the corresponding parse.search call of the source
returns on this line, plus the scanner's substring tests.
subj: search "obj<</Subj(...)"; lBracket: search "/L[...]";
verticesBracket: search "/Vertices[...]"; rectBracket: search "/Rect[...]";
fillOpacity: search "/FillOpacity :g/"; lineOpacity: "/LineOpacity :g/";
contents: search "/Contents(...)/"; pageField: search "/Page(...)";
rgUpper: search ":g :g :g RG"; rgLower: ":g :g :g rg";
weightW: search " :g w"; dashD: search " [...] :g d" with the bracketed
floats already converted; isObjHeader: search "... 0 obj<<" succeeded;
hasStream / hasEndstream: substring tests; strTruthy: the line is a
nonempty string. -/
structure FdfLine where
  subj : Option (List Char)
  lBracket : Option (List Char)
  verticesBracket : Option (List Char)
  rectBracket : Option (List Char)
  fillOpacity : Option ℚ
  lineOpacity : Option ℚ
  contents : Option (List Char)
  pageField : Option (List Char)
  rgUpper : Option (ℚ × ℚ × ℚ)
  rgLower : Option (ℚ × ℚ × ℚ)
  weightW : Option ℚ
  dashD : Option (ℚ × List ℚ)
  isObjHeader : Bool
  hasStream : Bool
  hasEndstream : Bool
  strTruthy : Bool
deriving DecidableEq

/-- extract_type_and_vertices of fdf_to_wkt.py.  Subscripting a failed
parse.search result (None[0]) raises TypeError; unpacking a bounding box
that does not split into exactly four fields raises ValueError.  A Subj
value outside the six supported names falls off the end (None). -/
def extract_type_and_vertices (line : FdfLine) :
    Except PyErr (Option (List Char × List Char)) :=
  match line.subj with
  | none => .ok none
  | some annot_type =>
    if annot_type = str "Line" then
      match line.lBracket with
      | none => .error .typeError
      | some v => .ok (some (annot_type, v))
    else if annot_type = str "Circle" ∨ annot_type = str "PolyLine" ∨
        annot_type = str "Polygon" then
      match line.verticesBracket with
      | none => .error .typeError
      | some v => .ok (some (annot_type, v))
    else if annot_type = str "Rectangle" ∨ annot_type = str "Square" then
      match line.rectBracket with
      | none => .error .typeError
      | some bbox =>
        match pySplitWs bbox with
        | [x1, y1, x2, y2] =>
          .ok (some (annot_type,
            pyJoin (str " ") [x1, y1, x1, y2, x2, y2, x2, y1]))
        | _ => .error .valueError
    else .ok none

/-- Result of extract_object_properties after the scanner pops label and
page: the dict always carries both opacity keys (possibly None) plus the
popped label and page values. -/
structure ObjectProps where
  fill_opacity : Option ℚ
  line_opacity : Option ℚ
  label : Option (List Char)
  page : Option (List Char)
deriving DecidableEq

/-- extract_object_opacity: both keys always present, values optional. -/
def extract_object_opacity (line : FdfLine) : Option ℚ × Option ℚ :=
  (line.fillOpacity, line.lineOpacity)

/-- extract_label. -/
def extract_label (line : FdfLine) : Option (List Char) :=
  line.contents

/-- extract_page. -/
def extract_page (line : FdfLine) : Option (List Char) :=
  line.pageField

/-- extract_object_properties, merged from the opacity, label and page
extractors (the scanner then pops label and page). -/
def extract_object_properties (line : FdfLine) : ObjectProps :=
  { fill_opacity := (extract_object_opacity line).1
  , line_opacity := (extract_object_opacity line).2
  , label := extract_label line
  , page := extract_page line }

/-- The four-key dict returned by extract_stream_properties; as a Python
dict it is always truthy, even when every value is None. -/
structure StreamProps where
  line_color : Option (ℚ × ℚ × ℚ)
  fill_color : Option (ℚ × ℚ × ℚ)
  line_weight : Option ℚ
  line_type : Option (ℚ × List ℚ)
deriving DecidableEq

/-- extract_stream_properties of fdf_to_wkt.py on the held stream body. -/
def extract_stream_properties (stream_line : FdfLine) : StreamProps :=
  { line_color := stream_line.rgUpper
  , fill_color := stream_line.rgLower
  , line_weight := stream_line.weightW
  , line_type := stream_line.dashD }

/-- The annotation_properties dict of the scanner: opacity keys are present
once a header line has been adopted, stream keys once an emission has
merged a stream dict.  dict.update overwrites values, including with None. -/
structure PropAcc where
  opacity : Option (Option ℚ × Option ℚ)
  stream : Option StreamProps
deriving DecidableEq

/-- AnnotationProperties(**annotation_properties): a key absent from the
dict defaults to None; a key present with value None stays None. -/
def buildProperties (acc : PropAcc) : AnnotationProperties :=
  { line_color := acc.stream.bind (fun sp => sp.line_color)
  , line_opacity := acc.opacity.bind (fun p => p.2)
  , line_weight := acc.stream.bind (fun sp => sp.line_weight)
  , line_type := acc.stream.bind (fun sp => sp.line_type)
  , fill_color := acc.stream.bind (fun sp => sp.fill_color)
  , fill_opacity := acc.opacity.bind (fun p => p.1) }

/-- The mutable locals of get_annotations_from_fdf. -/
structure ScanState where
  annotations : List Annotation
  in_stream_data : Bool
  stream_data : Option FdfLine
  stream_properties : Option StreamProps
  annotation_properties : PropAcc
  annot_type : Option (List Char)
  vertices : Option (List Char)
  label : Option (List Char)
  page : Option (List Char)
deriving DecidableEq

/-- Truthiness test of the held stream_data: it is a captured line string,
truthy when not None and nonempty. -/
def heldStreamBody (st : ScanState) : Option FdfLine :=
  match st.stream_data with
  | some sd => if sd.strTruthy then some sd else none
  | none => none

/-- The elif branch adopting a header line's extraction results:
annot_type, vertices = type_and_vertices; label and page are popped from
the object properties; the two opacity keys are merged into
annotation_properties (overwriting, possibly with None). -/
def adoptHeader (st : ScanState) (tv : Option (List Char × List Char))
    (props : ObjectProps) : Except PyErr ScanState :=
  match tv with
  | some (t, v) =>
    .ok { st with
          annot_type := some t
        , vertices := some v
        , label := props.label
        , page := props.page
        , annotation_properties :=
            { opacity := some (props.fill_opacity, props.line_opacity)
            , stream := st.annotation_properties.stream } }
  | none => .ok st

/-- The code below the if/elif chain of get_annotations_from_fdf: extract
type+vertices (which may raise) and object properties, then either emit a
completed record (when annot_type and vertices are truthy strings and
stream_properties is a nonempty dict) or adopt this line's header data.
On emission only stream_properties is cleared; annot_type, vertices,
label and page persist. -/
def fallThrough (st : ScanState) (line : FdfLine) : Except PyErr ScanState :=
  match extract_type_and_vertices line with
  | .error e => .error e
  | .ok tv =>
    let props := extract_object_properties line
    match st.annot_type, st.vertices, st.stream_properties with
    | some t, some v, some sp =>
      if t ≠ [] ∧ v ≠ [] then
        let acc2 : PropAcc :=
          { opacity := st.annotation_properties.opacity, stream := some sp }
        .ok { st with
              annotation_properties := acc2
            , stream_properties := none
            , annotations := st.annotations ++
                [{ object_type := t
                 , vertices := v
                 , page := st.page
                 , label := st.label
                 , properties := some (buildProperties acc2)
                 , wkt := none }] }
      else adoptHeader st tv props
    | _, _, _ => adoptHeader st tv props

/-- One iteration of the scanner loop of get_annotations_from_fdf:
1. an endstream line with a truthy held body parses the stream properties
   and falls through;
2. else in stream data: capture this line as the body and continue;
3. else a line that is neither a header nor contains "stream": skip;
4. else a line containing "stream": open a stream and continue;
5. else fall through to extraction and emission. -/
def processLine (st : ScanState) (line : FdfLine) : Except PyErr ScanState :=
  match (if line.hasEndstream then heldStreamBody st else none) with
  | some sd =>
    fallThrough
      { st with
        stream_properties := some (extract_stream_properties sd)
      , stream_data := none } line
  | none =>
    if st.in_stream_data then
      .ok { st with stream_data := some line, in_stream_data := false }
    else if !line.isObjHeader && !line.hasStream then
      .ok st
    else if line.hasStream then
      .ok { st with in_stream_data := true }
    else
      fallThrough st line

/-- The initial values of the scanner's locals. -/
def initState : ScanState :=
  { annotations := []
  , in_stream_data := false
  , stream_data := none
  , stream_properties := none
  , annotation_properties := { opacity := none, stream := none }
  , annot_type := none
  , vertices := none
  , label := none
  , page := none }

/-- The scanner loop, threading the state through the line sequence. -/
def scanLines : ScanState → List FdfLine → Except PyErr ScanState
  | st, [] => .ok st
  | st, l :: ls =>
    match processLine st l with
    | .error e => .error e
    | .ok st2 => scanLines st2 ls

/-- get_annotations_from_fdf of fdf_to_wkt.py. -/
def get_annotations_from_fdf (fdf_str : List FdfLine) :
    Except PyErr (List Annotation) :=
  (scanLines initState fdf_str).map (fun st => st.annotations)

/-- The loop body of group_vertices: walk the enumerated fields, pairing an
even-position field with the following odd-position field; a trailing
unpaired field stays in the coordinates buffer and is discarded. -/
def gvAux : List (List Char) → Nat → List (List Char) → List (List Char) →
    List (List Char)
  | [], _, acc, _ => acc
  | t :: ts, idx, acc, coords =>
    if idx % 2 = 1 then
      gvAux ts (idx + 1) (acc ++ [pyJoin (str " ") (coords ++ [t])]) []
    else
      gvAux ts (idx + 1) acc (coords ++ [t])

/-- group_vertices of fdf_to_wkt.py: split on single spaces, pair up the
fields, optionally close by appending acc[0] (IndexError when acc is
empty), and join with ", ". -/
def group_vertices (vertices : List Char) (close : Bool) :
    Except PyErr (List Char) :=
  let acc := gvAux (pySplitSpace vertices) 0 [] []
  if close then
    match acc with
    | [] => .error .indexError
    | a :: rest => .ok (pyJoin (str ", ") ((a :: rest) ++ [a]))
  else
    .ok (pyJoin (str ", ") acc)

/-- annotation_to_wkt of fdf_to_wkt.py: LINESTRING for PolyLine and Line,
closed POLYGON for Polygon and Rectangle, otherwise fall off the end
(Python returns None). -/
def annotation_to_wkt (annot : Annotation) :
    Except PyErr (Option (List Char)) :=
  if annot.object_type = str "PolyLine" ∨ annot.object_type = str "Line" then
    match group_vertices annot.vertices false with
    | .error e => .error e
    | .ok g => .ok (some (str "LINESTRING(" ++ g ++ str ")"))
  else if annot.object_type = str "Polygon" ∨
      annot.object_type = str "Rectangle" then
    match group_vertices annot.vertices true with
    | .error e => .error e
    | .ok g => .ok (some (str "POLYGON((" ++ g ++ str "))"))
  else .ok none

/-- Specification-side pairing: the list of "x y" coordinate pairs that
group_vertices accumulates, dropping a trailing unpaired field. -/
def pairUp : List (List Char) → List (List Char)
  | x :: y :: rest => (x ++ str " " ++ y) :: pairUp rest
  | _ => []

/-- Greedy run of decimal digits at the head of the input, with the rest. -/
def takeDigits : List Char → List Char × List Char
  | [] => ([], [])
  | c :: cs =>
    if c.isDigit then
      let p := takeDigits cs
      (c :: p.1, p.2)
    else ([], c :: cs)

/-- Numeric value of a digit run. -/
def digitsToNat (ds : List Char) : Nat :=
  ds.foldl (fun n c => 10 * n + (c.toNat - 48)) 0

/-- Match a ":g"-typed parse field at the head of the input: a decimal
numeral, an optional point and fraction; value as ℚ, with the rest. -/
def matchNum (s : List Char) : Option (ℚ × List Char) :=
  match takeDigits s with
  | ([], _) => none
  | (ds, rest) =>
    match rest with
    | '.' :: r2 =>
      match takeDigits r2 with
      | ([], _) => some ((digitsToNat ds : ℚ), rest)
      | (fs, r3) =>
        some ((digitsToNat ds : ℚ) + (digitsToNat fs : ℚ) / ((10 : ℚ) ^ fs.length), r3)
    | _ => some ((digitsToNat ds : ℚ), rest)

/-- Match the pattern ":g :g :g XY" (three numbers, single spaces, a
two-letter operator) at the head of the input. -/
def matchColorAt (k1 k2 : Char) (s : List Char) : Option (ℚ × ℚ × ℚ) := do
  let (r, s1) ← matchNum s
  match s1 with
  | ' ' :: s2 => do
    let (g, s3) ← matchNum s2
    match s3 with
    | ' ' :: s4 => do
      let (b, s5) ← matchNum s4
      match s5 with
      | ' ' :: c1 :: c2 :: _ =>
        if c1 = k1 ∧ c2 = k2 then some (r, g, b) else none
      | _ => none
    | _ => none
  | _ => none

/-- re.search for the color pattern: try the match at each start position. -/
def searchColor (k1 k2 : Char) : List Char → Option (ℚ × ℚ × ℚ)
  | [] => none
  | c :: rest =>
    match matchColorAt k1 k2 (c :: rest) with
    | some v => some v
    | none => searchColor k1 k2 rest

/-- parse_line_color of fdf_to_wkt.py: search ":g :g :g RG" with
case_sensitive=True on the stream-body line. -/
def parse_line_color (stream_line : List Char) : Option (ℚ × ℚ × ℚ) :=
  searchColor 'R' 'G' stream_line

/-- parse_fill_color of fdf_to_wkt.py: search ":g :g :g rg" with
case_sensitive=True on the stream-body line. -/
def parse_fill_color (stream_line : List Char) : Option (ℚ × ℚ × ℚ) :=
  searchColor 'r' 'g' stream_line

/-- Match the pattern " :g w" (a literal leading space, a number, a space
and the w operator) at the head of the input. -/
def matchWeightAt (s : List Char) : Option ℚ :=
  match s with
  | ' ' :: s1 =>
    match matchNum s1 with
    | some (q, ' ' :: 'w' :: _) => some q
    | _ => none
  | _ => none

/-- re.search for the weight pattern: try the match at each start position. -/
def searchWeight : List Char → Option ℚ
  | [] => none
  | c :: rest =>
    match matchWeightAt (c :: rest) with
    | some v => some v
    | none => searchWeight rest

/-- parse_line_weight of fdf_to_wkt.py: search " :g w" (note the literal
leading space in the pattern) with case_sensitive=True. -/
def parse_line_weight (stream_line : List Char) : Option ℚ :=
  searchWeight stream_line

namespace FdfToShapely

/-- Annotation of fdf_to_shapely.py (three fields only). -/
structure Annotation where
  object_type : List Char
  vertices : List Char
  properties : Option AnnotationProperties
deriving DecidableEq

/-- group_vertices of fdf_to_shapely.py, textually identical to the
fdf_to_wkt.py version. -/
def group_vertices (vertices : List Char) (close : Bool) :
    Except PyErr (List Char) :=
  let acc := gvAux (pySplitSpace vertices) 0 [] []
  if close then
    match acc with
    | [] => .error .indexError
    | a :: rest => .ok (pyJoin (str ", ") ((a :: rest) ++ [a]))
  else
    .ok (pyJoin (str ", ") acc)

/-- annotation_to_wkt of fdf_to_shapely.py, textually identical to the
fdf_to_wkt.py version: Square again falls off the end. -/
def annotation_to_wkt (annot : Annotation) :
    Except PyErr (Option (List Char)) :=
  if annot.object_type = str "PolyLine" ∨ annot.object_type = str "Line" then
    match group_vertices annot.vertices false with
    | .error e => .error e
    | .ok g => .ok (some (str "LINESTRING(" ++ g ++ str ")"))
  else if annot.object_type = str "Polygon" ∨
      annot.object_type = str "Rectangle" then
    match group_vertices annot.vertices true with
    | .error e => .error e
    | .ok g => .ok (some (str "POLYGON((" ++ g ++ str "))"))
  else .ok none

end FdfToShapely

/-- A line on which every extractor misses and every marker test fails. -/
def blankLine : FdfLine :=
  { subj := none
  , lBracket := none
  , verticesBracket := none
  , rectBracket := none
  , fillOpacity := none
  , lineOpacity := none
  , contents := none
  , pageField := none
  , rgUpper := none
  , rgLower := none
  , weightW := none
  , dashD := none
  , isObjHeader := false
  , hasStream := false
  , hasEndstream := false
  , strTruthy := true }

/-- An object-header line for a Line annotation on page 0. -/
def lineHeader : FdfLine :=
  { blankLine with
    subj := some (str "Line")
  , lBracket := some (str "10 20 30 40")
  , pageField := some (str "0")
  , isObjHeader := true }

/-- A stream-open line. -/
def streamOpen : FdfLine :=
  { blankLine with hasStream := true }

/-- A stream body setting line weight 1. -/
def bodyWeight1 : FdfLine :=
  { blankLine with weightW := some 1 }

/-- A stream body setting line weight 2. -/
def bodyWeight2 : FdfLine :=
  { blankLine with weightW := some 2 }

/-- An endstream line (it also contains "stream" as a substring). -/
def streamClose : FdfLine :=
  { blankLine with hasStream := true, hasEndstream := true }

/-- One header followed by two complete content-stream blocks with no
second header in between. -/
def c1Input : List FdfLine :=
  [lineHeader, streamOpen, bodyWeight1, streamClose,
   streamOpen, bodyWeight2, streamClose]

/-- A scanner state holding a completed Line geometry and a held stream
body, as reached just before an endstream line. -/
def c1State : ScanState :=
  { annotations := []
  , in_stream_data := false
  , stream_data := some bodyWeight2
  , stream_properties := none
  , annotation_properties := { opacity := some (none, none), stream := none }
  , annot_type := some (str "Line")
  , vertices := some (str "10 20 30 40")
  , label := none
  , page := some (str "0") }

/-- A Line annotation over four ordinates. -/
def c2Line : Annotation :=
  { object_type := str "Line"
  , vertices := str "10 20 30 40"
  , page := none
  , label := none
  , properties := none
  , wkt := none }

/-- A Polygon annotation over six ordinates. -/
def c2Poly : Annotation :=
  { object_type := str "Polygon"
  , vertices := str "0 0 4 0 4 3"
  , page := none
  , label := none
  , properties := none
  , wkt := none }

/-- A Rectangle header line with bounding box 0 0 100 50. -/
def c3Line : FdfLine :=
  { blankLine with
    subj := some (str "Rectangle")
  , rectBracket := some (str "0 0 100 50")
  , isObjHeader := true }

/-- A Square annotation carrying the synthesized rectangle ordinates. -/
def c4Square : Annotation :=
  { object_type := str "Square"
  , vertices := str "0 0 0 50 100 50 100 0"
  , page := none
  , label := none
  , properties := none
  , wkt := none }

/-- The same Square annotation for the fdf_to_shapely.py converter. -/
def c4SquareS : FdfToShapely.Annotation :=
  { object_type := str "Square"
  , vertices := str "0 0 0 50 100 50 100 0"
  , properties := none }

/-- A header line carrying a Subj(Line) marker but no /L[ field. -/
def c5Line : FdfLine :=
  { blankLine with subj := some (str "Line"), isObjHeader := true }

/-- A header line carrying a Subj(Polygon) marker but no /Vertices[ field. -/
def c5Poly : FdfLine :=
  { blankLine with subj := some (str "Polygon"), isObjHeader := true }

/-- A header line whose Subj names an unsupported annotation type. -/
def c5Other : FdfLine :=
  { blankLine with subj := some (str "Highlight"), isObjHeader := true }

/-- A Circle annotation: extracted by the pipeline but with no conversion
rule. -/
def c6Circle : Annotation :=
  { object_type := str "Circle"
  , vertices := str "0 0 10 10"
  , page := none
  , label := none
  , properties := none
  , wkt := none }

/-- A Line annotation with an odd number of ordinate tokens. -/
def c7Line : Annotation :=
  { object_type := str "Line"
  , vertices := str "1 2 3"
  , page := none
  , label := none
  , properties := none
  , wkt := none }

/-- The same odd-count annotation for the fdf_to_shapely.py converter. -/
def c7LineS : FdfToShapely.Annotation :=
  { object_type := str "Line"
  , vertices := str "1 2 3"
  , properties := none }

/-- A PolyLine header line for object A. -/
def c8HeaderA : FdfLine :=
  { blankLine with
    subj := some (str "PolyLine")
  , verticesBracket := some (str "1 1 2 2 3 1")
  , pageField := some (str "0")
  , isObjHeader := true }

/-- A Polygon header line for object B, with label, page and opacities. -/
def c8HeaderB : FdfLine :=
  { blankLine with
    subj := some (str "Polygon")
  , verticesBracket := some (str "5 5 6 5 6 6")
  , contents := some (str "beta")
  , pageField := some (str "1")
  , fillOpacity := some (1 / 2)
  , lineOpacity := some (3 / 4)
  , isObjHeader := true }

/-- A stream body setting stroke color and weight for object B. -/
def c8Body : FdfLine :=
  { blankLine with
    rgUpper := some (1 / 5, 2 / 5, 3 / 5)
  , weightW := some (5 / 2) }

/-- A Polygon annotation with an empty vertices string. -/
def c10Empty : Annotation :=
  { object_type := str "Polygon"
  , vertices := str ""
  , page := none
  , label := none
  , properties := none
  , wkt := none }

theorem twoStepInduction {α : Type} {P : List α → Prop} (h0 : P [])
    (h1 : ∀ a, P [a]) (h2 : ∀ a b l, P l → P (a :: b :: l)) : ∀ l, P l
  | [] => h0
  | [a] => h1 a
  | a :: b :: l => h2 a b l (twoStepInduction h0 h1 h2 l)

theorem gvAux_even (toks : List (List Char)) :
    ∀ idx acc, idx % 2 = 0 → gvAux toks idx acc [] = acc ++ pairUp toks := by
  induction toks using twoStepInduction with
  | h0 => intro idx acc h; simp [gvAux, pairUp]
  | h1 a =>
    intro idx acc h
    simp only [gvAux, h]
    simp [pairUp]
  | h2 a b l ih =>
    intro idx acc h
    have e0 : ¬ idx % 2 = 1 := by omega
    have e1 : (idx + 1) % 2 = 1 := by omega
    have e2 : (idx + 2) % 2 = 0 := by omega
    rw [show gvAux (a :: b :: l) idx acc [] =
        if idx % 2 = 1 then
          gvAux (b :: l) (idx + 1) (acc ++ [pyJoin (str " ") ([] ++ [a])]) []
        else gvAux (b :: l) (idx + 1) acc ([] ++ [a]) from rfl]
    rw [if_neg e0]
    simp only [List.nil_append]
    rw [show gvAux (b :: l) (idx + 1) acc [a] =
        if (idx + 1) % 2 = 1 then
          gvAux l (idx + 2) (acc ++ [pyJoin (str " ") ([a] ++ [b])]) []
        else gvAux l (idx + 2) acc ([a] ++ [b]) from rfl]
    rw [if_pos e1, ih (idx + 2) _ e2]
    simp [pairUp, pyJoin]

theorem pairUp_length : ∀ toks : List (List Char),
    (pairUp toks).length = toks.length / 2 := by
  intro toks
  induction toks using twoStepInduction with
  | h0 => simp [pairUp]
  | h1 a => simp [pairUp]
  | h2 a b l ih =>
    simp only [pairUp, List.length_cons, ih]
    omega

theorem group_vertices_open (v : List Char) :
    group_vertices v false =
      .ok (pyJoin (str ", ") (pairUp (pySplitSpace v))) := by
  simp only [group_vertices, gvAux_even (pySplitSpace v) 0 [] rfl,
    List.nil_append, Bool.false_eq_true, if_false]

theorem group_vertices_closed (v p : List Char) (ps : List (List Char))
    (h : pairUp (pySplitSpace v) = p :: ps) :
    group_vertices v true =
      .ok (pyJoin (str ", ") ((p :: ps) ++ [p])) := by
  simp only [group_vertices, gvAux_even (pySplitSpace v) 0 [] rfl,
    List.nil_append, h, if_true]

theorem group_vertices_closed_err (v : List Char)
    (h : pairUp (pySplitSpace v) = []) :
    group_vertices v true = .error .indexError := by
  simp only [group_vertices, gvAux_even (pySplitSpace v) 0 [] rfl,
    List.nil_append, h, if_true]

theorem splitBy_ne_nil (p : Char → Bool) : ∀ s, splitBy p s ≠ [] := by
  intro s
  induction s with
  | nil => simp [splitBy]
  | cons c cs ih =>
    by_cases hc : p c
    · simp [splitBy, hc]
    · simp only [splitBy, hc, Bool.false_eq_true, if_false]
      cases e : splitBy p cs with
      | nil => exact absurd e ih
      | cons t ts => simp

theorem splitBy_mem_false (p : Char → Bool) :
    ∀ s t, t ∈ splitBy p s → ∀ c ∈ t, p c = false := by
  intro s
  induction s with
  | nil =>
    intro t ht c hc
    simp [splitBy] at ht
    subst ht
    simp at hc
  | cons d ds ih =>
    intro t ht c hc
    by_cases hd : p d
    · simp only [splitBy, hd, if_true, List.mem_cons] at ht
      rcases ht with h | h
      · subst h; simp at hc
      · exact ih t h c hc
    · simp only [splitBy, hd, Bool.false_eq_true, if_false] at ht
      cases e : splitBy p ds with
      | nil => exact absurd e (splitBy_ne_nil p ds)
      | cons t0 ts =>
        rw [e] at ht
        simp only [List.mem_cons] at ht
        rcases ht with h | h
        · subst h
          rcases List.mem_cons.mp hc with hcd | hct
          · subst hcd; exact Bool.eq_false_iff.mpr hd
          · exact ih t0 (e ▸ List.mem_cons_self t0 ts) c hct
        · exact ih t (e ▸ List.mem_cons_of_mem t0 h) c hc

theorem pySplitWs_no_space (s t : List Char) (ht : t ∈ pySplitWs s) :
    ∀ c ∈ t, c ≠ ' ' := by
  intro c hc he
  have h1 : t ∈ splitBy Char.isWhitespace s := List.mem_of_mem_filter ht
  have h2 := splitBy_mem_false Char.isWhitespace s t h1 c hc
  subst he
  simp [Char.isWhitespace] at h2

theorem pySplitSpace_no_sep (t : List Char) (h : ∀ c ∈ t, c ≠ ' ') :
    pySplitSpace t = [t] := by
  induction t with
  | nil => rfl
  | cons c cs ih =>
    have hc : (c == ' ') = false := by
      simp only [beq_eq_false_iff_ne]
      exact h c (List.mem_cons_self c cs)
    have hcs := ih (fun d hd => h d (List.mem_cons_of_mem c hd))
    simp only [pySplitSpace] at hcs ⊢
    simp only [splitBy, hc, Bool.false_eq_true, if_false, hcs]

theorem pySplitSpace_sep (t s : List Char) (h : ∀ c ∈ t, c ≠ ' ') :
    pySplitSpace (t ++ ' ' :: s) = t :: pySplitSpace s := by
  induction t with
  | nil =>
    simp only [List.nil_append, pySplitSpace, splitBy, beq_self_eq_true, if_true]
  | cons c cs ih =>
    have hc : (c == ' ') = false := by
      simp only [beq_eq_false_iff_ne]
      exact h c (List.mem_cons_self c cs)
    have hcs := ih (fun d hd => h d (List.mem_cons_of_mem c hd))
    simp only [pySplitSpace] at hcs ⊢
    simp only [List.cons_append, splitBy, hc, Bool.false_eq_true, if_false]
    simp only [List.append_eq, hcs]

theorem pySplitSpace_join (ts : List (List Char)) (hne : ts ≠ [])
    (h : ∀ t ∈ ts, ∀ c ∈ t, c ≠ ' ') :
    pySplitSpace (pyJoin (str " ") ts) = ts := by
  induction ts with
  | nil => exact absurd rfl hne
  | cons x xs ih =>
    cases xs with
    | nil => exact pySplitSpace_no_sep x (h x (List.mem_cons_self x []))
    | cons y ys =>
      have hx : ∀ c ∈ x, c ≠ ' ' := h x (List.mem_cons_self x (y :: ys))
      have hrest : ∀ t ∈ y :: ys, ∀ c ∈ t, c ≠ ' ' :=
        fun t htm => h t (List.mem_cons_of_mem x htm)
      have hj : pyJoin (str " ") (x :: y :: ys) =
          x ++ ' ' :: pyJoin (str " ") (y :: ys) := by
        simp [pyJoin, str]
      rw [hj, pySplitSpace_sep x _ hx, ih (by simp) hrest]

/-- Claim C2: for every Annotation whose vertices string has an even token
count 2n (n ≥ 1), Line and PolyLine conversion returns a LINESTRING of
exactly the n coordinate pairs in input order with no closing repetition,
and Polygon and Rectangle conversion returns a POLYGON of n+1 pairs whose
first pair equals its last, every token passed through verbatim. -/
theorem claim2_conversion_pair_counts (a : Annotation) (n : Nat) (hn : 1 ≤ n)
    (htok : (pySplitSpace a.vertices).length = 2 * n) :
    ((a.object_type = str "Line" ∨ a.object_type = str "PolyLine") →
      annotation_to_wkt a =
        .ok (some (str "LINESTRING(" ++
          pyJoin (str ", ") (pairUp (pySplitSpace a.vertices)) ++ str ")")) ∧
      (pairUp (pySplitSpace a.vertices)).length = n) ∧
    ((a.object_type = str "Polygon" ∨ a.object_type = str "Rectangle") →
      ∃ p ps, pairUp (pySplitSpace a.vertices) = p :: ps ∧
        annotation_to_wkt a =
          .ok (some (str "POLYGON((" ++
            pyJoin (str ", ") ((p :: ps) ++ [p]) ++ str "))")) ∧
        ((p :: ps) ++ [p]).length = n + 1 ∧
        ((p :: ps) ++ [p]).getLast? = some p) := by
  have hlen : (pairUp (pySplitSpace a.vertices)).length = n := by
    rw [pairUp_length, htok]; omega
  constructor
  · intro hty
    refine ⟨?_, hlen⟩
    simp only [annotation_to_wkt, if_pos hty.symm, group_vertices_open]
  · intro hty
    have hne1 : ¬(a.object_type = str "PolyLine" ∨ a.object_type = str "Line") := by
      rcases hty with h | h <;> rw [h] <;> decide
    obtain ⟨p, ps, hpu⟩ : ∃ p ps, pairUp (pySplitSpace a.vertices) = p :: ps := by
      cases e : pairUp (pySplitSpace a.vertices) with
      | nil => rw [e] at hlen; simp at hlen; omega
      | cons p ps => exact ⟨p, ps, rfl⟩
    have hlen2 : ps.length + 1 = n := by
      rw [hpu] at hlen
      simpa using hlen
    refine ⟨p, ps, hpu, ?_, ?_, ?_⟩
    · simp only [annotation_to_wkt, if_neg hne1, if_pos hty,
        group_vertices_closed a.vertices p ps hpu]
    · simp only [List.length_append, List.length_cons, List.length_nil]
      omega
    · exact List.getLast?_concat _

/-- Witness for claim C2: the Line annotation over "10 20 30 40" with
n = 2 converts to a two-pair LINESTRING. -/
theorem claim2_witness :
    1 ≤ 2 ∧ (pySplitSpace c2Line.vertices).length = 2 * 2 ∧
    (annotation_to_wkt c2Line =
      .ok (some (str "LINESTRING(" ++
        pyJoin (str ", ") (pairUp (pySplitSpace c2Line.vertices)) ++ str ")")) ∧
    (pairUp (pySplitSpace c2Line.vertices)).length = 2) :=
  ⟨by decide, by decide,
   (claim2_conversion_pair_counts c2Line 2 (by decide) (by decide)).1 (Or.inl rfl)⟩

/-- Claim C3: every Rectangle or Square header line with a 4-number
bounding box x1 y1 x2 y2 synthesizes exactly 8 ordinates in the fixed
corner order (x1,y1), (x1,y2), (x2,y2), (x2,y1), and Rectangle conversion
of the synthesized string yields the closed POLYGON over those corners. -/
theorem claim3_rectangle_synthesis (line : FdfLine)
    (bbox x1 y1 x2 y2 : List Char)
    (hsub : line.subj = some (str "Rectangle") ∨
      line.subj = some (str "Square"))
    (hrect : line.rectBracket = some bbox)
    (hbox : pySplitWs bbox = [x1, y1, x2, y2]) :
    ∃ t, line.subj = some t ∧
      extract_type_and_vertices line =
        .ok (some (t, pyJoin (str " ") [x1, y1, x1, y2, x2, y2, x2, y1])) ∧
      (pySplitSpace
        (pyJoin (str " ") [x1, y1, x1, y2, x2, y2, x2, y1])).length = 8 ∧
      annotation_to_wkt
          { object_type := str "Rectangle"
          , vertices := pyJoin (str " ") [x1, y1, x1, y2, x2, y2, x2, y1]
          , page := none, label := none, properties := none, wkt := none } =
        .ok (some (str "POLYGON((" ++
          pyJoin (str ", ")
            [x1 ++ str " " ++ y1, x1 ++ str " " ++ y2, x2 ++ str " " ++ y2,
             x2 ++ str " " ++ y1, x1 ++ str " " ++ y1] ++ str "))")) := by
  have hx1 : ∀ c ∈ x1, c ≠ ' ' :=
    pySplitWs_no_space bbox x1 (by rw [hbox]; simp)
  have hy1 : ∀ c ∈ y1, c ≠ ' ' :=
    pySplitWs_no_space bbox y1 (by rw [hbox]; simp)
  have hx2 : ∀ c ∈ x2, c ≠ ' ' :=
    pySplitWs_no_space bbox x2 (by rw [hbox]; simp)
  have hy2 : ∀ c ∈ y2, c ≠ ' ' :=
    pySplitWs_no_space bbox y2 (by rw [hbox]; simp)
  have hsplit8 : pySplitSpace (pyJoin (str " ") [x1, y1, x1, y2, x2, y2, x2, y1]) =
      [x1, y1, x1, y2, x2, y2, x2, y1] := by
    refine pySplitSpace_join _ (by simp) ?_
    intro t ht
    simp only [List.mem_cons, List.not_mem_nil, or_false] at ht
    rcases ht with rfl | rfl | rfl | rfl | rfl | rfl | rfl | rfl <;>
      first | exact hx1 | exact hy1 | exact hx2 | exact hy2
  have hpu : pairUp (pySplitSpace (pyJoin (str " ") [x1, y1, x1, y2, x2, y2, x2, y1])) =
      (x1 ++ str " " ++ y1) ::
        [x1 ++ str " " ++ y2, x2 ++ str " " ++ y2, x2 ++ str " " ++ y1] := by
    rw [hsplit8]
    simp [pairUp]
  have hwkt : annotation_to_wkt
      { object_type := str "Rectangle"
      , vertices := pyJoin (str " ") [x1, y1, x1, y2, x2, y2, x2, y1]
      , page := none, label := none, properties := none, wkt := none } =
      .ok (some (str "POLYGON((" ++
        pyJoin (str ", ")
          [x1 ++ str " " ++ y1, x1 ++ str " " ++ y2, x2 ++ str " " ++ y2,
           x2 ++ str " " ++ y1, x1 ++ str " " ++ y1] ++ str "))")) := by
    simp only [annotation_to_wkt]
    rw [if_neg (by decide), if_pos (by decide),
      group_vertices_closed _ _ _ hpu]
    rfl
  have hcount : (pySplitSpace
      (pyJoin (str " ") [x1, y1, x1, y2, x2, y2, x2, y1])).length = 8 := by
    rw [hsplit8]
    rfl
  rcases hsub with h | h
  · refine ⟨str "Rectangle", h, ?_, hcount, hwkt⟩
    simp only [extract_type_and_vertices, h, hrect]
    rw [hbox, if_neg (by decide), if_neg (by decide), if_pos (by simp)]
  · refine ⟨str "Square", h, ?_, hcount, hwkt⟩
    simp only [extract_type_and_vertices, h, hrect]
    rw [hbox, if_neg (by decide), if_neg (by decide), if_pos (by simp)]

/-- Witness for claim C3: the Rectangle header with bounding box
"0 0 100 50" synthesizes "0 0 0 50 100 50 100 0" and converts to
"POLYGON((0 0, 0 50, 100 50, 100 0, 0 0))". -/
theorem claim3_witness :
    extract_type_and_vertices c3Line =
      .ok (some (str "Rectangle", str "0 0 0 50 100 50 100 0")) ∧
    annotation_to_wkt
        { object_type := str "Rectangle"
        , vertices := str "0 0 0 50 100 50 100 0"
        , page := none, label := none, properties := none, wkt := none } =
      .ok (some (str "POLYGON((0 0, 0 50, 100 50, 100 0, 0 0))")) := by
  obtain ⟨t, hsubj, hex, hcnt, hwkt⟩ :=
    claim3_rectangle_synthesis c3Line (str "0 0 100 50")
      (str "0") (str "0") (str "100") (str "50") (Or.inl rfl) rfl (by decide)
  have ht : t = str "Rectangle" := by
    have h2 := hsubj
    simp only [c3Line, blankLine, Option.some.injEq] at h2
    exact h2.symm
  subst ht
  exact ⟨hex.trans rfl, hwkt.trans rfl⟩

/-- Claim C4 counterexample: a Square annotation over the synthesized
rectangle ordinates is not converted to a POLYGON; both converters fall
off the end and return None. -/
theorem claim4_counterexample :
    annotation_to_wkt c4Square = .ok none ∧
    FdfToShapely.annotation_to_wkt c4SquareS = .ok none := by
  constructor <;> rfl

/-- Claim C4 amended: annotation_to_wkt handles only PolyLine, Line,
Polygon and Rectangle; for object_type Square both converters return
None (no WKT is produced), in both source files. -/
theorem claim4_amended (a : Annotation) (b : FdfToShapely.Annotation)
    (ha : a.object_type = str "Square") (hb : b.object_type = str "Square") :
    annotation_to_wkt a = .ok none ∧
    FdfToShapely.annotation_to_wkt b = .ok none := by
  constructor
  · simp only [annotation_to_wkt, ha]
    rw [if_neg (by decide), if_neg (by decide)]
  · simp only [FdfToShapely.annotation_to_wkt, hb]
    rw [if_neg (by decide), if_neg (by decide)]

/-- Witness for claim C4 at a second Square annotation. -/
theorem claim4_witness :
    annotation_to_wkt
        { object_type := str "Square", vertices := str "1 1 1 2 2 2 2 1"
        , page := none, label := none, properties := none, wkt := none } = .ok none ∧
    FdfToShapely.annotation_to_wkt
        { object_type := str "Square", vertices := str "1 1 1 2 2 2 2 1"
        , properties := none } = .ok none :=
  claim4_amended
    { object_type := str "Square", vertices := str "1 1 1 2 2 2 2 1"
    , page := none, label := none, properties := none, wkt := none }
    { object_type := str "Square", vertices := str "1 1 1 2 2 2 2 1"
    , properties := none } rfl rfl

/-- Claim C6 counterexample: conversion of a Circle annotation does not
fail and does not name the type: the converter silently returns None. -/
theorem claim6_counterexample :
    annotation_to_wkt c6Circle = .ok none := by rfl

/-- Claim C6 amended: for every Annotation whose object_type is none of
PolyLine, Line, Polygon, Rectangle (in particular Circle), the converter
returns None without raising: no WKT string and no error naming the
type is produced. -/
theorem claim6_amended (a : Annotation)
    (h1 : a.object_type ≠ str "PolyLine") (h2 : a.object_type ≠ str "Line")
    (h3 : a.object_type ≠ str "Polygon")
    (h4 : a.object_type ≠ str "Rectangle") :
    annotation_to_wkt a = .ok none := by
  simp only [annotation_to_wkt]
  rw [if_neg (by tauto), if_neg (by tauto)]

/-- Witness for claim C6 at a Circle annotation with empty vertices. -/
theorem claim6_witness :
    annotation_to_wkt
        { object_type := str "Circle", vertices := str ""
        , page := none, label := none, properties := none, wkt := none } =
      .ok none :=
  claim6_amended
    { object_type := str "Circle", vertices := str ""
    , page := none, label := none, properties := none, wkt := none }
    (by decide) (by decide) (by decide) (by decide)

/-- Claim C7 counterexample: on the odd ordinate list "1 2 3" both
converters succeed with "LINESTRING(1 2)", silently dropping the trailing
ordinate instead of surfacing a structural failure. -/
theorem claim7_counterexample :
    annotation_to_wkt c7Line = .ok (some (str "LINESTRING(1 2)")) ∧
    FdfToShapely.annotation_to_wkt c7LineS =
      .ok (some (str "LINESTRING(1 2)")) := by
  constructor <;> rfl

/-- Claim C7 amended: on an odd token count 2n+1 the converter does not
fail; the trailing ordinate is silently dropped and a Line or PolyLine
annotation converts to a LINESTRING of the first n pairs. -/
theorem claim7_amended (a : Annotation) (n : Nat)
    (htok : (pySplitSpace a.vertices).length = 2 * n + 1)
    (hty : a.object_type = str "Line" ∨ a.object_type = str "PolyLine") :
    annotation_to_wkt a =
      .ok (some (str "LINESTRING(" ++
        pyJoin (str ", ") (pairUp (pySplitSpace a.vertices)) ++ str ")")) ∧
    (pairUp (pySplitSpace a.vertices)).length = n := by
  refine ⟨?_, by rw [pairUp_length, htok]; omega⟩
  simp only [annotation_to_wkt, if_pos hty.symm, group_vertices_open]

/-- Witness for claim C7: "1 2 3" has three tokens and converts with one
pair. -/
theorem claim7_witness :
    (pySplitSpace c7Line.vertices).length = 2 * 1 + 1 ∧
    (annotation_to_wkt c7Line =
      .ok (some (str "LINESTRING(" ++
        pyJoin (str ", ") (pairUp (pySplitSpace c7Line.vertices)) ++ str ")")) ∧
    (pairUp (pySplitSpace c7Line.vertices)).length = 1) :=
  ⟨by decide, claim7_amended c7Line 1 (by decide) (Or.inl rfl)⟩

/-- Claim C10: a Polygon or Rectangle annotation whose vertices string has
fewer than two space-separated tokens makes annotation_to_wkt raise
(IndexError on acc[0] during ring closure), and with at least two tokens
the closure step succeeds. -/
theorem claim10_closure_safety (a : Annotation)
    (hty : a.object_type = str "Polygon" ∨ a.object_type = str "Rectangle") :
    ((pySplitSpace a.vertices).length < 2 →
      annotation_to_wkt a = .error .indexError) ∧
    (2 ≤ (pySplitSpace a.vertices).length →
      ∃ w, annotation_to_wkt a = .ok (some w)) := by
  have hne1 : ¬(a.object_type = str "PolyLine" ∨ a.object_type = str "Line") := by
    rcases hty with h | h <;> rw [h] <;> decide
  constructor
  · intro hlt
    have hnn : pySplitSpace a.vertices ≠ [] := splitBy_ne_nil _ a.vertices
    have h1 : (pySplitSpace a.vertices).length = 1 := by
      have hpos : 0 < (pySplitSpace a.vertices).length :=
        List.length_pos.mpr hnn
      omega
    obtain ⟨t, ht⟩ := List.length_eq_one.mp h1
    have hpu : pairUp (pySplitSpace a.vertices) = [] := by
      rw [ht]; rfl
    simp only [annotation_to_wkt, if_neg hne1, if_pos hty,
      group_vertices_closed_err a.vertices hpu]
  · intro hge
    cases e : pySplitSpace a.vertices with
    | nil => rw [e] at hge; simp at hge
    | cons t0 rest =>
      cases rest with
      | nil => rw [e] at hge; simp at hge
      | cons t1 r =>
        have hpu : pairUp (pySplitSpace a.vertices) =
            (t0 ++ str " " ++ t1) :: pairUp r := by
          rw [e]; rfl
        refine ⟨str "POLYGON((" ++ pyJoin (str ", ")
          (((t0 ++ str " " ++ t1) :: pairUp r) ++ [t0 ++ str " " ++ t1]) ++
          str "))", ?_⟩
        simp only [annotation_to_wkt, if_neg hne1, if_pos hty,
          group_vertices_closed a.vertices _ _ hpu]

/-- Witness for claim C10: the empty vertices string has one token and the
Polygon conversion raises IndexError. -/
theorem claim10_witness :
    (pySplitSpace c10Empty.vertices).length < 2 ∧
    annotation_to_wkt c10Empty = .error .indexError :=
  ⟨by decide, (claim10_closure_safety c10Empty (Or.inl rfl)).1 (by decide)⟩

/-- Claim C1 counterexample: one Line header followed by two complete
content-stream blocks with no second header line in between yields TWO
appended annotations sharing the header's type, vertices and page: the
pending accumulator is not fully reset after an emission, and a second
stream block re-triggers an append. -/
theorem claim1_counterexample :
    get_annotations_from_fdf c1Input =
      .ok [{ object_type := str "Line", vertices := str "10 20 30 40"
           , page := some (str "0"), label := none
           , properties := some
               { line_color := none, line_opacity := none
               , line_weight := some 1, line_type := none
               , fill_color := none, fill_opacity := none }
           , wkt := none },
           { object_type := str "Line", vertices := str "10 20 30 40"
           , page := some (str "0"), label := none
           , properties := some
               { line_color := none, line_opacity := none
               , line_weight := some 2, line_type := none
               , fill_color := none, fill_opacity := none }
           , wkt := none }] := by
  rfl

/-- Claim C1 amended: when an endstream line closes a held stream body
while annot_type and vertices are populated, exactly one Annotation is
appended, but only stream_properties (and the held body) are cleared:
annot_type, vertices, label, page and the accumulated properties persist,
so a further stream block with no intervening header appends again. -/
theorem claim1_amended (st : ScanState) (line sd : FdfLine) (t v : List Char)
    (tv : Option (List Char × List Char))
    (hsd : st.stream_data = some sd) (hsdT : sd.strTruthy = true)
    (hes : line.hasEndstream = true)
    (htv : extract_type_and_vertices line = .ok tv)
    (hat : st.annot_type = some t) (ht : t ≠ [])
    (hvv : st.vertices = some v) (hv : v ≠ []) :
    processLine st line = .ok
      { st with
        annotations := st.annotations ++
          [{ object_type := t, vertices := v
           , page := st.page, label := st.label
           , properties := some (buildProperties
               { opacity := st.annotation_properties.opacity
               , stream := some (extract_stream_properties sd) })
           , wkt := none }]
      , annotation_properties :=
          { opacity := st.annotation_properties.opacity
          , stream := some (extract_stream_properties sd) }
      , stream_properties := none
      , stream_data := none } := by
  simp only [processLine, heldStreamBody, hsd, hsdT, hes, if_true,
    fallThrough, htv, hat, hvv]
  rw [if_pos ⟨ht, hv⟩]

/-- Witness for claim C1: the amended statement at the concrete state held
just before the second endstream line of the counterexample document. -/
theorem claim1_witness :
    processLine c1State streamClose = .ok
      { c1State with
        annotations := c1State.annotations ++
          [{ object_type := str "Line", vertices := str "10 20 30 40"
           , page := c1State.page, label := c1State.label
           , properties := some (buildProperties
               { opacity := c1State.annotation_properties.opacity
               , stream := some (extract_stream_properties bodyWeight2) })
           , wkt := none }]
      , annotation_properties :=
          { opacity := c1State.annotation_properties.opacity
          , stream := some (extract_stream_properties bodyWeight2) }
      , stream_properties := none
      , stream_data := none } :=
  claim1_amended c1State streamClose bodyWeight2 (str "Line")
    (str "10 20 30 40") none rfl rfl rfl rfl rfl (by decide) rfl (by decide)

/-- Claim C8: a header line for object A immediately followed by a header
line for object B before any stream block, then B's content stream: A is
discarded (never emitted) and exactly B is emitted, carrying B's type,
vertices, label, page, header opacities and stream style. -/
theorem claim8_second_header_wins (hA hB sOpen body sClose : FdfLine)
    (tA vA tB vB : List Char)
    (hA2 : hA.isObjHeader = true) (hA3 : hA.hasStream = false)
    (hA4 : extract_type_and_vertices hA = .ok (some (tA, vA)))
    (hB2 : hB.isObjHeader = true) (hB3 : hB.hasStream = false)
    (hB4 : extract_type_and_vertices hB = .ok (some (tB, vB)))
    (hBt : tB ≠ []) (hBv : vB ≠ [])
    (hS2 : sOpen.hasStream = true)
    (hBody : body.strTruthy = true)
    (hC1 : sClose.hasEndstream = true)
    (tvC : Option (List Char × List Char))
    (hC4 : extract_type_and_vertices sClose = .ok tvC) :
    get_annotations_from_fdf [hA, hB, sOpen, body, sClose] =
      .ok [{ object_type := tB, vertices := vB
           , page := hB.pageField, label := hB.contents
           , properties := some
               { line_color := body.rgUpper
               , line_opacity := hB.lineOpacity
               , line_weight := body.weightW
               , line_type := body.dashD
               , fill_color := body.rgLower
               , fill_opacity := hB.fillOpacity }
           , wkt := none }] := by
  have h1 : processLine initState hA = .ok
      { annotations := [], in_stream_data := false, stream_data := none
      , stream_properties := none
      , annotation_properties :=
          { opacity := some (hA.fillOpacity, hA.lineOpacity), stream := none }
      , annot_type := some tA, vertices := some vA
      , label := hA.contents, page := hA.pageField } := by
    simp only [processLine, heldStreamBody, initState, ite_self,
      hA2, hA3, Bool.not_true, Bool.not_false, Bool.false_and, Bool.and_false,
      if_false, fallThrough, hA4, adoptHeader, extract_object_properties]
    rfl
  have h2 : processLine
      { annotations := [], in_stream_data := false, stream_data := none
      , stream_properties := none
      , annotation_properties :=
          { opacity := some (hA.fillOpacity, hA.lineOpacity), stream := none }
      , annot_type := some tA, vertices := some vA
      , label := hA.contents, page := hA.pageField } hB = .ok
      { annotations := [], in_stream_data := false, stream_data := none
      , stream_properties := none
      , annotation_properties :=
          { opacity := some (hB.fillOpacity, hB.lineOpacity), stream := none }
      , annot_type := some tB, vertices := some vB
      , label := hB.contents, page := hB.pageField } := by
    simp only [processLine, heldStreamBody, ite_self,
      hB2, hB3, Bool.not_true, Bool.not_false, Bool.false_and, Bool.and_false,
      if_false, fallThrough, hB4, adoptHeader, extract_object_properties]
    rfl
  have h3 : processLine
      { annotations := [], in_stream_data := false, stream_data := none
      , stream_properties := none
      , annotation_properties :=
          { opacity := some (hB.fillOpacity, hB.lineOpacity), stream := none }
      , annot_type := some tB, vertices := some vB
      , label := hB.contents, page := hB.pageField } sOpen = .ok
      { annotations := [], in_stream_data := true, stream_data := none
      , stream_properties := none
      , annotation_properties :=
          { opacity := some (hB.fillOpacity, hB.lineOpacity), stream := none }
      , annot_type := some tB, vertices := some vB
      , label := hB.contents, page := hB.pageField } := by
    simp only [processLine, heldStreamBody, ite_self, hS2,
      Bool.not_true, Bool.and_false, if_false, if_true]
    rfl
  have h4 : processLine
      { annotations := [], in_stream_data := true, stream_data := none
      , stream_properties := none
      , annotation_properties :=
          { opacity := some (hB.fillOpacity, hB.lineOpacity), stream := none }
      , annot_type := some tB, vertices := some vB
      , label := hB.contents, page := hB.pageField } body = .ok
      { annotations := [], in_stream_data := false, stream_data := some body
      , stream_properties := none
      , annotation_properties :=
          { opacity := some (hB.fillOpacity, hB.lineOpacity), stream := none }
      , annot_type := some tB, vertices := some vB
      , label := hB.contents, page := hB.pageField } := by
    simp only [processLine, heldStreamBody, ite_self, if_true]
  have h5 : processLine
      { annotations := [], in_stream_data := false, stream_data := some body
      , stream_properties := none
      , annotation_properties :=
          { opacity := some (hB.fillOpacity, hB.lineOpacity), stream := none }
      , annot_type := some tB, vertices := some vB
      , label := hB.contents, page := hB.pageField } sClose = .ok
      { annotations :=
          [{ object_type := tB, vertices := vB
           , page := hB.pageField, label := hB.contents
           , properties := some
               { line_color := body.rgUpper
               , line_opacity := hB.lineOpacity
               , line_weight := body.weightW
               , line_type := body.dashD
               , fill_color := body.rgLower
               , fill_opacity := hB.fillOpacity }
           , wkt := none }]
      , in_stream_data := false, stream_data := none
      , stream_properties := none
      , annotation_properties :=
          { opacity := some (hB.fillOpacity, hB.lineOpacity)
          , stream := some (extract_stream_properties body) }
      , annot_type := some tB, vertices := some vB
      , label := hB.contents, page := hB.pageField } := by
    simp only [processLine, heldStreamBody, hBody, hC1, if_true,
      fallThrough, hC4]
    rw [if_pos ⟨hBt, hBv⟩]
    simp [buildProperties, extract_stream_properties]
  simp only [get_annotations_from_fdf, scanLines, h1, h2, h3, h4, h5]
  rfl

/-- Witness for claim C8 on concrete lines: header A (PolyLine), header B
(Polygon with label, page and opacities), then B's stream block. -/
theorem claim8_witness :
    get_annotations_from_fdf [c8HeaderA, c8HeaderB, streamOpen, c8Body, streamClose] =
      .ok [{ object_type := str "Polygon", vertices := str "5 5 6 5 6 6"
           , page := c8HeaderB.pageField, label := c8HeaderB.contents
           , properties := some
               { line_color := c8Body.rgUpper
               , line_opacity := c8HeaderB.lineOpacity
               , line_weight := c8Body.weightW
               , line_type := c8Body.dashD
               , fill_color := c8Body.rgLower
               , fill_opacity := c8HeaderB.fillOpacity }
           , wkt := none }] :=
  claim8_second_header_wins c8HeaderA c8HeaderB streamOpen c8Body streamClose
    (str "PolyLine") (str "1 1 2 2 3 1") (str "Polygon") (str "5 5 6 5 6 6")
    rfl rfl rfl rfl rfl rfl (by decide) (by decide) rfl rfl rfl none rfl

/-- Claim C5 counterexample: on a line carrying an obj-header Subj(Line)
marker but no /L[ field, extract_type_and_vertices raises a TypeError
(subscripting the failed search result) instead of returning absent. -/
theorem claim5_counterexample :
    extract_type_and_vertices c5Line = .error .typeError := by rfl

/-- Claim C5 amended: the Type+Vertices extractor returns absent when the
line has no Subj marker or an unsupported Subj value, but when Subj names
a supported type and the corresponding vertex field (/L[, /Vertices[ or
/Rect[) is missing from the line it raises a TypeError rather than
returning absent. -/
theorem claim5_amended :
    (∀ line : FdfLine, line.subj = none →
      extract_type_and_vertices line = .ok none) ∧
    (∀ (line : FdfLine) (t : List Char), line.subj = some t →
      t ≠ str "Line" → t ≠ str "Circle" → t ≠ str "PolyLine" →
      t ≠ str "Polygon" → t ≠ str "Rectangle" → t ≠ str "Square" →
      extract_type_and_vertices line = .ok none) ∧
    (∀ line : FdfLine, line.subj = some (str "Line") →
      line.lBracket = none →
      extract_type_and_vertices line = .error .typeError) ∧
    (∀ (line : FdfLine) (t : List Char), line.subj = some t →
      (t = str "Circle" ∨ t = str "PolyLine" ∨ t = str "Polygon") →
      line.verticesBracket = none →
      extract_type_and_vertices line = .error .typeError) ∧
    (∀ (line : FdfLine) (t : List Char), line.subj = some t →
      (t = str "Rectangle" ∨ t = str "Square") →
      line.rectBracket = none →
      extract_type_and_vertices line = .error .typeError) := by
  refine ⟨?_, ?_, ?_, ?_, ?_⟩
  · intro line h
    simp [extract_type_and_vertices, h]
  · intro line t h h1 h2 h3 h4 h5 h6
    simp only [extract_type_and_vertices, h]
    rw [if_neg h1, if_neg (by tauto), if_neg (by tauto)]
  · intro line h hL
    simp [extract_type_and_vertices, h, hL]
  · intro line t h ht hV
    have hne : t ≠ str "Line" := by
      rcases ht with h' | h' | h' <;> subst h' <;> decide
    simp only [extract_type_and_vertices, h, hV]
    rw [if_neg hne, if_pos ht]
  · intro line t h ht hR
    have hne1 : t ≠ str "Line" := by
      rcases ht with h' | h' <;> subst h' <;> decide
    have hne2 : ¬(t = str "Circle" ∨ t = str "PolyLine" ∨ t = str "Polygon") := by
      rcases ht with h' | h' <;> subst h' <;> decide
    simp only [extract_type_and_vertices, h, hR]
    rw [if_neg hne1, if_neg hne2, if_pos ht]

/-- Witness for claim C5: the three amended behaviours at concrete lines:
no Subj marker, an unsupported Subj value, and a Polygon Subj with the
/Vertices[ field missing. -/
theorem claim5_witness :
    extract_type_and_vertices blankLine = .ok none ∧
    extract_type_and_vertices c5Other = .ok none ∧
    extract_type_and_vertices c5Poly = .error .typeError :=
  ⟨claim5_amended.1 blankLine rfl,
   claim5_amended.2.1 c5Other (str "Highlight") rfl (by decide) (by decide)
     (by decide) (by decide) (by decide) (by decide),
   claim5_amended.2.2.2.1 c5Poly (str "Polygon") rfl (Or.inr (Or.inr rfl)) rfl⟩

/-- Claim C9 counterexample: the stream-body line "2.5 w" does not yield
line weight 2.5: parse_line_weight searches for a literal space before
the number and the line starts with the digit. -/
theorem claim9_counterexample :
    ¬ parse_line_weight (str "2.5 w") = some ((5 : ℚ) / 2) := by
  decide

/-- Claim C9 amended: "0.2 0.4 0.6 RG" parses to line_color
(0.2, 0.4, 0.6); the line-weight pattern carries a literal leading space,
so "2.5 w" parses to no weight while " 2.5 w" parses to 2.5. -/
theorem claim9_amended :
    parse_line_color (str "0.2 0.4 0.6 RG") =
      some ((1 : ℚ) / 5, (2 : ℚ) / 5, (3 : ℚ) / 5) ∧
    parse_line_weight (str "2.5 w") = none ∧
    parse_line_weight (str " 2.5 w") = some ((5 : ℚ) / 2) := by
  refine ⟨?_, rfl, ?_⟩
  · have e1 : parse_line_color (str "0.2 0.4 0.6 RG") =
        some ((digitsToNat (str "0") : ℚ) + (digitsToNat (str "2") : ℚ) / 10 ^ 1,
              (digitsToNat (str "0") : ℚ) + (digitsToNat (str "4") : ℚ) / 10 ^ 1,
              (digitsToNat (str "0") : ℚ) + (digitsToNat (str "6") : ℚ) / 10 ^ 1) := rfl
    rw [e1, show digitsToNat (str "0") = 0 from rfl,
      show digitsToNat (str "2") = 2 from rfl,
      show digitsToNat (str "4") = 4 from rfl,
      show digitsToNat (str "6") = 6 from rfl]
    norm_num
  · have e3 : parse_line_weight (str " 2.5 w") =
        some ((digitsToNat (str "2") : ℚ) + (digitsToNat (str "5") : ℚ) / 10 ^ 1) := rfl
    rw [e3, show digitsToNat (str "2") = 2 from rfl,
      show digitsToNat (str "5") = 5 from rfl]
    norm_num
